import Mathlib

/-!
Verification of the compliance evaluation engine of the building-plan
checking pipeline (`src/modules/compliance_validator.py`, driven by
`main.py`).

Modelling conventions:
* Python floats are modelled as rationals (ℚ).  Every comparison the
  engine performs is a strict `<` / `>` on values that are short decimal
  fractions, so the rational model agrees with the float semantics at
  all inputs considered here.
* Python's `"{:.2f}"` / `"{:.1%}"` formatting is modelled by `fmt2` /
  `fmtPct1` (rounding ties are modelled half-up; no claim depends on a
  tie).  `str()` applied to a float threshold is modelled by
  `pyFloatStr` (the thresholds are produced by `float()` parses of short
  decimal text, so their `str()` is the shortest decimal form, with
  integers rendered as `k.0`).
* The `ComplianceValidator` class carries mutable fields
  `self.violations` / `self.compliant`; `check_compliance` is modelled
  as a function from the instance state to (new state, returned pair).
* Python `dict` access for by-laws is total here (`ByLaws := RuleKey → ℚ`):
  the caller contract guarantees a value for every key in `found_rules`,
  and the engine reads a key only under a `found_rules` test.
* `ZeroDivisionError` is made explicit in a second, exception-aware copy
  of the engine (`check_complianceE`) built on `qdiv`, used to prove
  that the plot-area guards make the engine total.
-/

/-- The six rule identifiers the engine knows
(`rule_mappings` in `get_data_from_pdf.py`). -/
inductive RuleKey where
  | max_height_m
  | min_setback_front_m
  | min_setback_rear_m
  | min_setback_side_m
  | max_far
  | max_coverage
deriving DecidableEq, Fintype

/-- The `by_laws` dict: numeric threshold per rule key. -/
abbrev ByLaws := RuleKey → ℚ

/-- The `found_rules` set: which rule keys the PDF actually stated. -/
abbrev FoundRules := RuleKey → Bool

/-- The `dxf_metrics` dict produced by the geometry extractor. -/
structure DxfMetrics where
  height_m : ℚ
  setback_front_m : ℚ
  setback_rear_m : ℚ
  setback_left_m : ℚ
  setback_right_m : ℚ
  footprint_area_m2 : ℚ
  total_area_m2 : ℚ
deriving DecidableEq

/-- The `gis_result` dict produced by `ShapefileValidator.validate_plot`. -/
structure GisResult where
  within_plot : Bool
  plot_area_m2 : ℚ
  violation_distance_m : ℚ
deriving DecidableEq

/-- Left-pad a digit string with zeros to length `d`. -/
def padZeros (d : Nat) (s : String) : String :=
  String.mk (List.replicate (d - s.length) '0') ++ s

/-- Floor of a rational as an integer (executable). -/
def qfloor (q : ℚ) : ℤ :=
  Int.fdiv q.num q.den

/-- Round-to-nearest of a rational (ties rounded half-up). -/
def qround (q : ℚ) : ℤ :=
  qfloor (q + 1 / 2)

/-- Model of Python `"{:.2f}".format(q)`: `q` rounded to two decimal
places, always showing two fraction digits. -/
def fmt2 (q : ℚ) : String :=
  let n : ℤ := qround (q * 100)
  let a : Nat := n.natAbs
  let sign : String := if n < 0 then "-" else ""
  sign ++ toString (a / 100) ++ "." ++ padZeros 2 (toString (a % 100))

/-- Model of Python `"{:.1%}".format(q)`: `q * 100` rounded to one
decimal place, with a trailing percent sign. -/
def fmtPct1 (q : ℚ) : String :=
  let n : ℤ := qround (q * 1000)
  let a : Nat := n.natAbs
  let sign : String := if n < 0 then "-" else ""
  sign ++ toString (a / 10) ++ "." ++ toString (a % 10) ++ "%"

/-- Model of Python `str()` on a float threshold.  The by-law values are
`float()` parses of short decimal text, so `str()` yields the shortest
decimal form; an integral value renders as `k.0`. -/
def pyFloatStr (q : ℚ) : String :=
  let sign : String := if q < 0 then "-" else ""
  let a : ℚ := if q < 0 then -q else q
  match (List.range 21).find? (fun d => 10 ^ d % a.den == 0) with
  | some 0 => sign ++ toString a.num.natAbs ++ ".0"
  | some d =>
      let n : Nat := a.num.natAbs * (10 ^ d / a.den)
      sign ++ toString (n / 10 ^ d) ++ "." ++ padZeros d (toString (n % 10 ^ d))
  | none => sign ++ toString a.num.natAbs ++ "/" ++ toString a.den

/-- `ComplianceValidator._check_height`: appended messages.  Runs only
when `max_height_m` is in `found_rules`; emits on strict exceedance. -/
def check_height (by_laws : ByLaws) (dxf_metrics : DxfMetrics)
    (found_rules : FoundRules) : List String :=
  if found_rules RuleKey.max_height_m then
    let actual := dxf_metrics.height_m
    let allowed := by_laws RuleKey.max_height_m
    if actual > allowed then
      ["Height exceeds limit by " ++ fmt2 (actual - allowed) ++ "m"]
    else []
  else []

/-- The `setbacks` list literal of `_check_setbacks`:
(display name, rule key, metric accessor). -/
def setbackItems : List (String × RuleKey × (DxfMetrics → ℚ)) :=
  [("front", RuleKey.min_setback_front_m, DxfMetrics.setback_front_m),
   ("rear", RuleKey.min_setback_rear_m, DxfMetrics.setback_rear_m),
   ("left side", RuleKey.min_setback_side_m, DxfMetrics.setback_left_m),
   ("right side", RuleKey.min_setback_side_m, DxfMetrics.setback_right_m)]

/-- Body of the `for name, rule_key, metric_key in setbacks` loop of
`_check_setbacks`: the messages appended for one item. -/
def setback_msgs (by_laws : ByLaws) (dxf_metrics : DxfMetrics)
    (found_rules : FoundRules)
    (item : String × RuleKey × (DxfMetrics → ℚ)) : List String :=
  if found_rules item.2.1 then
    let actual := item.2.2 dxf_metrics
    let required := by_laws item.2.1
    if actual < required then
      ["Insufficient " ++ item.1 ++ " setback: " ++ fmt2 actual ++ "m < "
        ++ pyFloatStr required ++ "m"]
    else []
  else []

/-- `ComplianceValidator._check_setbacks`: the loop appends the messages
of the four items in order. -/
def check_setbacks (by_laws : ByLaws) (dxf_metrics : DxfMetrics)
    (found_rules : FoundRules) : List String :=
  (setbackItems.map (setback_msgs by_laws dxf_metrics found_rules)).flatten

/-- `ComplianceValidator._check_far`: runs only when `max_far` is in
`found_rules` and the plot area is positive (the division guard). -/
def check_far (by_laws : ByLaws) (dxf_metrics : DxfMetrics)
    (gis_result : GisResult) (found_rules : FoundRules) : List String :=
  if found_rules RuleKey.max_far = true ∧ gis_result.plot_area_m2 > 0 then
    let far := dxf_metrics.total_area_m2 / gis_result.plot_area_m2
    let allowed := by_laws RuleKey.max_far
    if far > allowed then
      ["FAR exceeded: " ++ fmt2 far ++ " > " ++ fmt2 allowed]
    else []
  else []

/-- `ComplianceValidator._check_coverage`: same guard structure as
`_check_far`, percentage formatting in the message. -/
def check_coverage (by_laws : ByLaws) (dxf_metrics : DxfMetrics)
    (gis_result : GisResult) (found_rules : FoundRules) : List String :=
  if found_rules RuleKey.max_coverage = true ∧ gis_result.plot_area_m2 > 0 then
    let coverage := dxf_metrics.footprint_area_m2 / gis_result.plot_area_m2
    let allowed := by_laws RuleKey.max_coverage
    if coverage > allowed then
      ["Coverage exceeded: " ++ fmtPct1 coverage ++ " > " ++ fmtPct1 allowed]
    else []
  else []

/-- The violation list built by one run of
`ComplianceValidator.check_compliance`: the four checks append to
`self.violations` in this order. -/
def run_checks (by_laws : ByLaws) (dxf_metrics : DxfMetrics)
    (gis_result : GisResult) (found_rules : FoundRules) : List String :=
  check_height by_laws dxf_metrics found_rules
    ++ check_setbacks by_laws dxf_metrics found_rules
    ++ check_far by_laws dxf_metrics gis_result found_rules
    ++ check_coverage by_laws dxf_metrics gis_result found_rules

/-- Instance state of the `ComplianceValidator` class
(`self.violations`, `self.compliant`). -/
structure ComplianceValidator where
  violations : List String
  compliant : Bool
deriving DecidableEq

/-- `ComplianceValidator.__init__`. -/
def ComplianceValidator.init : ComplianceValidator :=
  { violations := [], compliant := true }

/-- `ComplianceValidator.check_compliance` as a state transformer:
(old instance state) ↦ (new instance state, returned pair).  The method
begins with `self.violations = []`, so the incoming state is discarded;
it ends with `self.compliant = len(self.violations) == 0` and returns
`(self.compliant, self.violations)`. -/
def check_compliance (_self : ComplianceValidator) (by_laws : ByLaws)
    (dxf_metrics : DxfMetrics) (gis_result : GisResult)
    (found_rules : FoundRules) : ComplianceValidator × (Bool × List String) :=
  let violations := run_checks by_laws dxf_metrics gis_result found_rules
  ({ violations := violations, compliant := violations.isEmpty },
   (violations.isEmpty, violations))

/-- One engine run from a fresh validator, as `main.py` performs it:
the returned `(compliant, violations)` pair. -/
def evaluate (by_laws : ByLaws) (dxf_metrics : DxfMetrics)
    (gis_result : GisResult) (found_rules : FoundRules) : Bool × List String :=
  (check_compliance ComplianceValidator.init by_laws dxf_metrics gis_result
    found_rules).2

/-- Python division, with `ZeroDivisionError` explicit. -/
def qdiv (a b : ℚ) : Except String ℚ :=
  if b = 0 then Except.error "ZeroDivisionError: float division by zero"
  else Except.ok (a / b)

/-- `_check_far` with the division made exception-aware via `qdiv`. -/
def check_farE (by_laws : ByLaws) (dxf_metrics : DxfMetrics)
    (gis_result : GisResult) (found_rules : FoundRules) :
    Except String (List String) :=
  if found_rules RuleKey.max_far = true ∧ gis_result.plot_area_m2 > 0 then
    match qdiv dxf_metrics.total_area_m2 gis_result.plot_area_m2 with
    | Except.error e => Except.error e
    | Except.ok far =>
        let allowed := by_laws RuleKey.max_far
        if far > allowed then
          Except.ok ["FAR exceeded: " ++ fmt2 far ++ " > " ++ fmt2 allowed]
        else Except.ok []
  else Except.ok []

/-- `_check_coverage` with the division made exception-aware via `qdiv`. -/
def check_coverageE (by_laws : ByLaws) (dxf_metrics : DxfMetrics)
    (gis_result : GisResult) (found_rules : FoundRules) :
    Except String (List String) :=
  if found_rules RuleKey.max_coverage = true ∧ gis_result.plot_area_m2 > 0 then
    match qdiv dxf_metrics.footprint_area_m2 gis_result.plot_area_m2 with
    | Except.error e => Except.error e
    | Except.ok coverage =>
        let allowed := by_laws RuleKey.max_coverage
        if coverage > allowed then
          Except.ok ["Coverage exceeded: " ++ fmtPct1 coverage ++ " > "
            ++ fmtPct1 allowed]
        else Except.ok []
  else Except.ok []

/-- The engine run with every division exception-aware: errors propagate
like Python exceptions, `Except.ok` means the run raised nothing. -/
def check_complianceE (by_laws : ByLaws) (dxf_metrics : DxfMetrics)
    (gis_result : GisResult) (found_rules : FoundRules) :
    Except String (Bool × List String) :=
  match check_farE by_laws dxf_metrics gis_result found_rules with
  | Except.error e => Except.error e
  | Except.ok v3 =>
      match check_coverageE by_laws dxf_metrics gis_result found_rules with
      | Except.error e => Except.error e
      | Except.ok v4 =>
          let violations :=
            check_height by_laws dxf_metrics found_rules
              ++ check_setbacks by_laws dxf_metrics found_rules ++ v3 ++ v4
          Except.ok (violations.isEmpty, violations)

/-- By-laws of Scenario A (`test_by_laws` in the sources / spec §8). -/
def scenarioA_by_laws : ByLaws := fun k =>
  match k with
  | RuleKey.max_height_m => 15
  | RuleKey.min_setback_front_m => 5
  | RuleKey.min_setback_rear_m => 3
  | RuleKey.min_setback_side_m => 2
  | RuleKey.max_far => 2
  | RuleKey.max_coverage => 2/5

/-- Metrics of Scenario A (`test_dxf` in the sources / spec §8). -/
def scenarioA_metrics : DxfMetrics :=
  { height_m := 33/2, setback_front_m := 24/5, setback_rear_m := 16/5,
    setback_left_m := 19/10, setback_right_m := 21/10,
    footprint_area_m2 := 450, total_area_m2 := 2700 }

/-- GIS result of Scenario A: contained, 1200 m² plot. -/
def scenarioA_gis : GisResult :=
  { within_plot := true, plot_area_m2 := 1200, violation_distance_m := 0 }

/-- Every rule stated in the document. -/
def allRules : FoundRules := fun _ => true

/-- No rule stated in the document. -/
def noRules : FoundRules := fun _ => false

/-- `_check_height` reads the by-laws only at `max_height_m`, and only
when that key is in `found_rules`. -/
theorem check_height_congr (b b' : ByLaws) (m : DxfMetrics) (s : FoundRules)
    (h : s RuleKey.max_height_m = true →
      b RuleKey.max_height_m = b' RuleKey.max_height_m) :
    check_height b m s = check_height b' m s := by
  unfold check_height
  by_cases hs : s RuleKey.max_height_m = true
  · rw [if_pos hs, if_pos hs, h hs]
  · rw [if_neg hs, if_neg hs]

/-- One setback item reads the by-laws only at its rule key, and only
when that key is in `found_rules`. -/
theorem setback_msgs_congr (b b' : ByLaws) (m : DxfMetrics) (s : FoundRules)
    (item : String × RuleKey × (DxfMetrics → ℚ))
    (h : s item.2.1 = true → b item.2.1 = b' item.2.1) :
    setback_msgs b m s item = setback_msgs b' m s item := by
  unfold setback_msgs
  by_cases hs : s item.2.1 = true
  · rw [if_pos hs, if_pos hs, h hs]
  · rw [if_neg hs, if_neg hs]

/-- `_check_setbacks` reads the by-laws only at keys in `found_rules`. -/
theorem check_setbacks_congr (b b' : ByLaws) (m : DxfMetrics) (s : FoundRules)
    (h : ∀ k, s k = true → b k = b' k) :
    check_setbacks b m s = check_setbacks b' m s := by
  unfold check_setbacks setbackItems
  simp only [List.map, List.flatten]
  rw [setback_msgs_congr b b' m s _ (fun hs => h _ hs),
    setback_msgs_congr b b' m s _ (fun hs => h _ hs),
    setback_msgs_congr b b' m s _ (fun hs => h _ hs),
    setback_msgs_congr b b' m s _ (fun hs => h _ hs)]

/-- `_check_far` reads the by-laws only at `max_far`, and only when that
key is in `found_rules`. -/
theorem check_far_congr (b b' : ByLaws) (m : DxfMetrics) (g : GisResult)
    (s : FoundRules)
    (h : s RuleKey.max_far = true → b RuleKey.max_far = b' RuleKey.max_far) :
    check_far b m g s = check_far b' m g s := by
  unfold check_far
  by_cases hc : s RuleKey.max_far = true ∧ g.plot_area_m2 > 0
  · rw [if_pos hc, if_pos hc, h hc.1]
  · rw [if_neg hc, if_neg hc]

/-- `_check_coverage` reads the by-laws only at `max_coverage`, and only
when that key is in `found_rules`. -/
theorem check_coverage_congr (b b' : ByLaws) (m : DxfMetrics) (g : GisResult)
    (s : FoundRules)
    (h : s RuleKey.max_coverage = true →
      b RuleKey.max_coverage = b' RuleKey.max_coverage) :
    check_coverage b m g s = check_coverage b' m g s := by
  unfold check_coverage
  by_cases hc : s RuleKey.max_coverage = true ∧ g.plot_area_m2 > 0
  · rw [if_pos hc, if_pos hc, h hc.1]
  · rw [if_neg hc, if_neg hc]

/-- The exception-aware FAR check never raises: the guard admits the
division only when the denominator is positive. -/
theorem check_farE_ok (b : ByLaws) (m : DxfMetrics) (g : GisResult)
    (s : FoundRules) :
    check_farE b m g s = Except.ok (check_far b m g s) := by
  unfold check_farE check_far qdiv
  by_cases hc : s RuleKey.max_far = true ∧ g.plot_area_m2 > 0
  · rw [if_pos hc, if_pos hc, if_neg (ne_of_gt hc.2)]
    dsimp only
    split_ifs <;> rfl
  · rw [if_neg hc, if_neg hc]

/-- The exception-aware coverage check never raises. -/
theorem check_coverageE_ok (b : ByLaws) (m : DxfMetrics) (g : GisResult)
    (s : FoundRules) :
    check_coverageE b m g s = Except.ok (check_coverage b m g s) := by
  unfold check_coverageE check_coverage qdiv
  by_cases hc : s RuleKey.max_coverage = true ∧ g.plot_area_m2 > 0
  · rw [if_pos hc, if_pos hc, if_neg (ne_of_gt hc.2)]
    dsimp only
    split_ifs <;> rfl
  · rw [if_neg hc, if_neg hc]

/-- The exception-aware engine run never raises, and agrees with the
plain engine run. -/
theorem check_complianceE_ok (b : ByLaws) (m : DxfMetrics) (g : GisResult)
    (s : FoundRules) :
    check_complianceE b m g s = Except.ok (evaluate b m g s) := by
  unfold check_complianceE
  rw [check_farE_ok, check_coverageE_ok]
  rfl

/-- `_check_height` depends on `found_rules` only through the
`max_height_m` membership test. -/
theorem check_height_rules_congr (b : ByLaws) (m : DxfMetrics)
    (s s' : FoundRules)
    (h : s RuleKey.max_height_m = s' RuleKey.max_height_m) :
    check_height b m s = check_height b m s' := by
  unfold check_height
  rw [h]

/-- One setback item depends on `found_rules` only through its own rule
key's membership test. -/
theorem setback_msgs_rules_congr (b : ByLaws) (m : DxfMetrics)
    (s s' : FoundRules) (item : String × RuleKey × (DxfMetrics → ℚ))
    (h : s item.2.1 = s' item.2.1) :
    setback_msgs b m s item = setback_msgs b m s' item := by
  unfold setback_msgs
  rw [h]

/-- `_check_setbacks` depends on `found_rules` only through the three
setback keys' membership tests. -/
theorem check_setbacks_rules_congr (b : ByLaws) (m : DxfMetrics)
    (s s' : FoundRules)
    (hf : s RuleKey.min_setback_front_m = s' RuleKey.min_setback_front_m)
    (hr : s RuleKey.min_setback_rear_m = s' RuleKey.min_setback_rear_m)
    (hside : s RuleKey.min_setback_side_m = s' RuleKey.min_setback_side_m) :
    check_setbacks b m s = check_setbacks b m s' := by
  unfold check_setbacks setbackItems
  simp only [List.map, List.flatten]
  rw [setback_msgs_rules_congr b m s s' _ hf,
    setback_msgs_rules_congr b m s s' _ hr,
    setback_msgs_rules_congr b m s s' _ hside,
    setback_msgs_rules_congr b m s s' _ hside]

/-- C1: the claim asserts that the boundary-containment check is always
evaluated, so that Scenario C (`within_plot = false`,
`violation_distance_m = 3.7`, every rule absent) yields
`approved = false` with exactly one violation citing 3.7 m.  The engine
never reads `within_plot` or `violation_distance_m`: on exactly that
input it returns `(true, [])` — approved, no violations. -/
theorem scenarioC_boundary_violation_ignored :
    evaluate scenarioA_by_laws scenarioA_metrics
      { within_plot := false, plot_area_m2 := 1200, violation_distance_m := 37/10 }
      noRules = (true, []) := by
  with_unfolding_all decide

/-- C5: Scenario A returns `approved = false` with exactly four
violations, in evaluation order: height (1.50 m excess), front setback
(4.80 m < 5 m), left side setback (1.90 m < 2 m) and FAR
(2.25 > 2.00); coverage (37.5% vs 40%) produces no violation. -/
theorem scenarioA_verdict :
    evaluate scenarioA_by_laws scenarioA_metrics scenarioA_gis allRules =
      (false,
        ["Height exceeds limit by 1.50m",
         "Insufficient front setback: 4.80m < 5.0m",
         "Insufficient left side setback: 1.90m < 2.0m",
         "FAR exceeded: 2.25 > 2.00"]) := by
  with_unfolding_all decide

/-- C8: for every input the returned approval flag is true exactly when
the returned violation list is empty. -/
theorem approved_iff_no_violations (b : ByLaws) (m : DxfMetrics)
    (g : GisResult) (s : FoundRules) :
    (evaluate b m g s).1 = true ↔ (evaluate b m g s).2 = [] := by
  simp [evaluate, check_compliance, List.isEmpty_iff]

/-- C9: the engine is deterministic and idempotent.  The returned pair
does not depend on the validator instance state (the method resets
`self.violations` first), and a second call on the state produced by a
first call returns the identical state and pair — results never
accumulate across calls. -/
theorem check_compliance_deterministic_idempotent
    (v v' : ComplianceValidator) (b : ByLaws) (m : DxfMetrics)
    (g : GisResult) (s : FoundRules) :
    (check_compliance v b m g s).2 = (check_compliance v' b m g s).2 ∧
    check_compliance (check_compliance v b m g s).1 b m g s =
      check_compliance v b m g s :=
  ⟨rfl, rfl⟩

/-- C10: the verdict is independent of `within_plot` and
`violation_distance_m` — two GIS results with the same `plot_area_m2`
yield identical `(compliant, violations)` pairs, since `plot_area_m2`
is the only boundary field the validator reads. -/
theorem verdict_independent_of_boundary_flags (b : ByLaws)
    (m : DxfMetrics) (s : FoundRules) (g g' : GisResult)
    (h : g.plot_area_m2 = g'.plot_area_m2) :
    evaluate b m g s = evaluate b m g' s := by
  obtain ⟨w, p, d⟩ := g
  obtain ⟨w', p', d'⟩ := g'
  dsimp only at h
  subst h
  rfl

/-- C10 witness: flipping `within_plot` to false and the violation
distance to 3.7 m over Scenario A leaves the verdict unchanged. -/
theorem verdict_independent_of_boundary_flags_witness :
    evaluate scenarioA_by_laws scenarioA_metrics scenarioA_gis allRules =
      evaluate scenarioA_by_laws scenarioA_metrics
        { within_plot := false, plot_area_m2 := 1200, violation_distance_m := 37/10 }
        allRules :=
  verdict_independent_of_boundary_flags scenarioA_by_laws scenarioA_metrics
    allRules scenarioA_gis
    { within_plot := false, plot_area_m2 := 1200, violation_distance_m := 37/10 }
    rfl

/-- C2: absent rules are skipped.  First: the verdict never reads a
by-law value whose key is outside `found_rules` (so absence is never
treated as a zero or infinite threshold).  Second: with every rule
absent (and the footprint within the plot), the engine returns
`approved = true` with an empty violation list. -/
theorem absent_rules_contribute_nothing :
    (∀ (b b' : ByLaws) (m : DxfMetrics) (g : GisResult) (s : FoundRules),
        (∀ k, s k = true → b k = b' k) →
        evaluate b m g s = evaluate b' m g s) ∧
    (∀ (b : ByLaws) (m : DxfMetrics) (g : GisResult),
        g.within_plot = true → evaluate b m g noRules = (true, [])) := by
  constructor
  · intro b b' m g s h
    unfold evaluate check_compliance run_checks
    rw [check_height_congr b b' m s (fun hs => h _ hs),
      check_setbacks_congr b b' m s h,
      check_far_congr b b' m g s (fun hs => h _ hs),
      check_coverage_congr b b' m g s (fun hs => h _ hs)]
  · intro b m g _
    rfl

/-- Only the height rule stated. -/
def heightOnly : FoundRules := fun k =>
  match k with
  | RuleKey.max_height_m => true
  | _ => false

/-- By-laws agreeing with Scenario A on `max_height_m` only; every other
(absent) threshold is changed to 999. -/
def altAbsentByLaws : ByLaws := fun k =>
  match k with
  | RuleKey.max_height_m => 15
  | _ => 999

/-- C2 witness: with only the height rule present, changing every absent
threshold leaves the verdict unchanged; and with no rules present over a
contained footprint the verdict is approval with no violations. -/
theorem absent_rules_contribute_nothing_witness :
    evaluate scenarioA_by_laws scenarioA_metrics scenarioA_gis heightOnly =
      evaluate altAbsentByLaws scenarioA_metrics scenarioA_gis heightOnly ∧
    evaluate scenarioA_by_laws scenarioA_metrics scenarioA_gis noRules =
      (true, []) :=
  ⟨absent_rules_contribute_nothing.1 scenarioA_by_laws altAbsentByLaws
      scenarioA_metrics scenarioA_gis heightOnly
      (by intro k hk; cases k <;> first | rfl | exact absurd hk (by decide)),
   absent_rules_contribute_nothing.2 scenarioA_by_laws scenarioA_metrics
      scenarioA_gis rfl⟩

/-- C3: with `plot_area_m2 = 0` the ratio checks are silently skipped:
the exception-aware engine raises nothing (no division by zero) and the
verdict coincides with the verdict in which `max_far` and `max_coverage`
are absent from the rule set, so no FAR or coverage violation is
produced. -/
theorem plot_area_zero_skips_ratio_checks (b : ByLaws) (m : DxfMetrics)
    (g : GisResult) (s : FoundRules) (h : g.plot_area_m2 = 0) :
    check_complianceE b m g s = Except.ok (evaluate b m g s) ∧
    evaluate b m g s =
      evaluate b m g (fun k =>
        if k = RuleKey.max_far ∨ k = RuleKey.max_coverage then false
        else s k) := by
  refine ⟨check_complianceE_ok b m g s, ?_⟩
  have hfar : ∀ s₀ : FoundRules, check_far b m g s₀ = [] := by
    intro s₀
    unfold check_far
    rw [if_neg]
    intro hc
    rw [h] at hc
    exact lt_irrefl 0 hc.2
  have hcov : ∀ s₀ : FoundRules, check_coverage b m g s₀ = [] := by
    intro s₀
    unfold check_coverage
    rw [if_neg]
    intro hc
    rw [h] at hc
    exact lt_irrefl 0 hc.2
  unfold evaluate check_compliance run_checks
  rw [hfar s, hfar _, hcov s, hcov _,
    check_height_rules_congr b m
      (fun k => if k = RuleKey.max_far ∨ k = RuleKey.max_coverage then false
        else s k) s (by simp),
    check_setbacks_rules_congr b m
      (fun k => if k = RuleKey.max_far ∨ k = RuleKey.max_coverage then false
        else s k) s (by simp) (by simp) (by simp)]

/-- A GIS record with zero plot area. -/
def zeroPlotGis : GisResult :=
  { within_plot := true, plot_area_m2 := 0, violation_distance_m := 0 }

/-- C3 witness: over a zero-area plot with all rules (including the
ratio rules) present, the exception-aware engine returns `Except.ok`
and the verdict equals the one with the ratio rules absent. -/
theorem plot_area_zero_skips_ratio_checks_witness :
    check_complianceE scenarioA_by_laws scenarioA_metrics zeroPlotGis
        allRules =
      Except.ok (evaluate scenarioA_by_laws scenarioA_metrics zeroPlotGis
        allRules) ∧
    evaluate scenarioA_by_laws scenarioA_metrics zeroPlotGis allRules =
      evaluate scenarioA_by_laws scenarioA_metrics zeroPlotGis (fun k =>
        if k = RuleKey.max_far ∨ k = RuleKey.max_coverage then false
        else allRules k) :=
  plot_area_zero_skips_ratio_checks scenarioA_by_laws scenarioA_metrics
    zeroPlotGis allRules rfl

/-- C4: equality at a threshold is not a violation, check by check.  For
any input and any rule set, each individual check emits nothing when its
own actual value equals its own governing threshold — regardless of what
the other checks do (the four setback checks are the four loop items of
`_check_setbacks`; for FAR and coverage the computed ratio at the cap
produces no violation).  Violations trigger only on strict exceedance
(`>`) for upper bounds and strict shortfall (`<`) for lower bounds. -/
theorem threshold_equality_not_violation (b : ByLaws) (m : DxfMetrics)
    (g : GisResult) (s : FoundRules) :
    (m.height_m = b RuleKey.max_height_m → check_height b m s = []) ∧
    (m.setback_front_m = b RuleKey.min_setback_front_m →
      setback_msgs b m s
        ("front", RuleKey.min_setback_front_m,
          DxfMetrics.setback_front_m) = []) ∧
    (m.setback_rear_m = b RuleKey.min_setback_rear_m →
      setback_msgs b m s
        ("rear", RuleKey.min_setback_rear_m,
          DxfMetrics.setback_rear_m) = []) ∧
    (m.setback_left_m = b RuleKey.min_setback_side_m →
      setback_msgs b m s
        ("left side", RuleKey.min_setback_side_m,
          DxfMetrics.setback_left_m) = []) ∧
    (m.setback_right_m = b RuleKey.min_setback_side_m →
      setback_msgs b m s
        ("right side", RuleKey.min_setback_side_m,
          DxfMetrics.setback_right_m) = []) ∧
    (m.total_area_m2 / g.plot_area_m2 = b RuleKey.max_far →
      check_far b m g s = []) ∧
    (m.footprint_area_m2 / g.plot_area_m2 = b RuleKey.max_coverage →
      check_coverage b m g s = []) := by
  refine ⟨?_, ?_, ?_, ?_, ?_, ?_, ?_⟩
  · intro h
    unfold check_height
    rw [h]
    simp
  · intro h
    unfold setback_msgs
    simp [h]
  · intro h
    unfold setback_msgs
    simp [h]
  · intro h
    unfold setback_msgs
    simp [h]
  · intro h
    unfold setback_msgs
    simp [h]
  · intro h
    unfold check_far
    by_cases hc : s RuleKey.max_far = true ∧ g.plot_area_m2 > 0
    · rw [if_pos hc]
      dsimp only
      rw [h]
      simp
    · rw [if_neg hc]
  · intro h
    unfold check_coverage
    by_cases hc : s RuleKey.max_coverage = true ∧ g.plot_area_m2 > 0
    · rw [if_pos hc]
      dsimp only
      rw [h]
      simp
    · rw [if_neg hc]

/-- Metrics sitting exactly at every Scenario A threshold: height 15,
front 5, rear 3, sides 2, total area 2400 (FAR exactly 2.0 on a 1200 m²
plot) and footprint 480 (coverage exactly 0.4). -/
def thresholdMetrics : DxfMetrics :=
  { height_m := 15, setback_front_m := 5, setback_rear_m := 3,
    setback_left_m := 2, setback_right_m := 2,
    footprint_area_m2 := 480, total_area_m2 := 2400 }

/-- Scenario B metrics (spec §8): Scenario A with the height exactly at
the 15 m cap and the front setback exactly at the 5 m minimum; the
left-side setback and FAR violations remain. -/
def scenarioB_metrics : DxfMetrics :=
  { scenarioA_metrics with height_m := 15, setback_front_m := 5 }

/-- C4 witness: on Scenario B the height and front-setback checks emit
nothing (each exactly at its threshold) even though the left-side
setback and FAR checks still fire — the full verdict keeps exactly those
two violations; and at the FAR/coverage caps those checks emit
nothing. -/
theorem threshold_equality_not_violation_witness :
    check_height scenarioA_by_laws scenarioB_metrics allRules = [] ∧
    setback_msgs scenarioA_by_laws scenarioB_metrics allRules
      ("front", RuleKey.min_setback_front_m,
        DxfMetrics.setback_front_m) = [] ∧
    check_far scenarioA_by_laws thresholdMetrics scenarioA_gis
      allRules = [] ∧
    check_coverage scenarioA_by_laws thresholdMetrics scenarioA_gis
      allRules = [] ∧
    evaluate scenarioA_by_laws scenarioB_metrics scenarioA_gis allRules =
      (false, ["Insufficient left side setback: 1.90m < 2.0m",
               "FAR exceeded: 2.25 > 2.00"]) :=
  ⟨(threshold_equality_not_violation scenarioA_by_laws scenarioB_metrics
      scenarioA_gis allRules).1 rfl,
   (threshold_equality_not_violation scenarioA_by_laws scenarioB_metrics
      scenarioA_gis allRules).2.1 rfl,
   (threshold_equality_not_violation scenarioA_by_laws thresholdMetrics
      scenarioA_gis allRules).2.2.2.2.2.1 (by with_unfolding_all decide),
   (threshold_equality_not_violation scenarioA_by_laws thresholdMetrics
      scenarioA_gis allRules).2.2.2.2.2.2 (by with_unfolding_all decide),
   by with_unfolding_all decide⟩

/-- Membership in a doubly-guarded singleton list. -/
theorem mem_double_ite (c1 c2 : Prop) [Decidable c1] [Decidable c2]
    (x a : String) :
    (a ∈ if c1 then if c2 then [x] else ([] : List String) else []) ↔
      (c1 ∧ c2 ∧ a = x) := by
  by_cases h1 : c1 <;> by_cases h2 : c2 <;> simp [h1, h2]

/-- Only the front setback rule stated. -/
def frontOnly : FoundRules := fun k =>
  match k with
  | RuleKey.min_setback_front_m => true
  | _ => false

/-- Metrics that are compliant except for a front setback of 2 m.  With
the Scenario A front minimum of 5 m, the shortfall is 3 m. -/
def shortFrontMetrics : DxfMetrics :=
  { height_m := 10, setback_front_m := 2, setback_rear_m := 10,
    setback_left_m := 10, setback_right_m := 10,
    footprint_area_m2 := 100, total_area_m2 := 100 }

/-- C6 counterexample: a front setback of 2 m against a required 5 m
(shortfall `required - actual = 3`) yields exactly one violation whose
message contains no character `3` at all — the message reports the
actual and required values, not the shortfall amount the claim
describes. -/
theorem setback_message_lacks_shortfall :
    (evaluate scenarioA_by_laws shortFrontMetrics scenarioA_gis
        frontOnly).2 = ["Insufficient front setback: 2.00m < 5.0m"] ∧
    scenarioA_by_laws RuleKey.min_setback_front_m -
        shortFrontMetrics.setback_front_m = 3 ∧
    ("Insufficient front setback: 2.00m < 5.0m".toList.contains '3')
      = false := by
  with_unfolding_all decide

/-- C6 amended: setbacks are four independent checks (front, rear, left,
right), each evaluated only when its governing rule is present, left and
right both keyed by the single `min_setback_side_m` threshold; a
violation is emitted iff `actual < required`, and the message reports
the actual value (2 decimal places) and the required value — not the
shortfall. -/
theorem setback_checks_characterization (b : ByLaws) (m : DxfMetrics)
    (s : FoundRules) (msg : String) :
    msg ∈ check_setbacks b m s ↔
      ((s RuleKey.min_setback_front_m = true ∧
          m.setback_front_m < b RuleKey.min_setback_front_m ∧
          msg = "Insufficient front setback: " ++ fmt2 m.setback_front_m
            ++ "m < " ++ pyFloatStr (b RuleKey.min_setback_front_m) ++ "m") ∨
       (s RuleKey.min_setback_rear_m = true ∧
          m.setback_rear_m < b RuleKey.min_setback_rear_m ∧
          msg = "Insufficient rear setback: " ++ fmt2 m.setback_rear_m
            ++ "m < " ++ pyFloatStr (b RuleKey.min_setback_rear_m) ++ "m") ∨
       (s RuleKey.min_setback_side_m = true ∧
          m.setback_left_m < b RuleKey.min_setback_side_m ∧
          msg = "Insufficient left side setback: " ++ fmt2 m.setback_left_m
            ++ "m < " ++ pyFloatStr (b RuleKey.min_setback_side_m) ++ "m") ∨
       (s RuleKey.min_setback_side_m = true ∧
          m.setback_right_m < b RuleKey.min_setback_side_m ∧
          msg = "Insufficient right side setback: "
            ++ fmt2 m.setback_right_m ++ "m < "
            ++ pyFloatStr (b RuleKey.min_setback_side_m) ++ "m")) := by
  unfold check_setbacks setbackItems setback_msgs
  simp [List.mem_append, mem_double_ite]

/-- C7: with `max_height_m` present and all other inputs fixed, raising
the height from any value at most the cap to any value strictly above it
flips exactly the height violation from absent to present: below or at
the cap the height check emits nothing; above it the check emits the one
message reporting the excess `height - cap` to two decimal places, and
the full violation list is that message prepended to the unchanged
remainder. -/
theorem height_increase_flips_violation (b : ByLaws) (m : DxfMetrics)
    (g : GisResult) (s : FoundRules) (hlow hhigh : ℚ)
    (hs : s RuleKey.max_height_m = true)
    (hle : hlow ≤ b RuleKey.max_height_m)
    (hgt : b RuleKey.max_height_m < hhigh) :
    check_height b { m with height_m := hlow } s = [] ∧
    check_height b { m with height_m := hhigh } s =
      ["Height exceeds limit by "
        ++ fmt2 (hhigh - b RuleKey.max_height_m) ++ "m"] ∧
    (evaluate b { m with height_m := hhigh } g s).2 =
      ("Height exceeds limit by "
        ++ fmt2 (hhigh - b RuleKey.max_height_m) ++ "m")
        :: (evaluate b { m with height_m := hlow } g s).2 := by
  have e1 : check_height b { m with height_m := hlow } s = [] := by
    unfold check_height
    rw [if_pos hs]
    dsimp only
    simp only [gt_iff_lt]
    rw [if_neg (not_lt.mpr hle)]
  have e2 : check_height b { m with height_m := hhigh } s =
      ["Height exceeds limit by "
        ++ fmt2 (hhigh - b RuleKey.max_height_m) ++ "m"] := by
    unfold check_height
    rw [if_pos hs]
    dsimp only
    simp only [gt_iff_lt]
    rw [if_pos hgt]
  refine ⟨e1, e2, ?_⟩
  show run_checks b { m with height_m := hhigh } g s =
    _ :: run_checks b { m with height_m := hlow } g s
  unfold run_checks
  rw [e1, e2]
  rfl

/-- C7 witness: over Scenario A inputs, height 14 m produces no height
violation while height 16.5 m produces exactly the 1.50 m excess
message prepended to the otherwise unchanged violation list. -/
theorem height_increase_flips_violation_witness :
    check_height scenarioA_by_laws
      { scenarioA_metrics with height_m := 14 } allRules = [] ∧
    check_height scenarioA_by_laws
      { scenarioA_metrics with height_m := 33/2 } allRules =
      ["Height exceeds limit by "
        ++ fmt2 (33/2 - scenarioA_by_laws RuleKey.max_height_m) ++ "m"] ∧
    (evaluate scenarioA_by_laws
        { scenarioA_metrics with height_m := 33/2 } scenarioA_gis
        allRules).2 =
      ("Height exceeds limit by "
        ++ fmt2 (33/2 - scenarioA_by_laws RuleKey.max_height_m) ++ "m")
        :: (evaluate scenarioA_by_laws
          { scenarioA_metrics with height_m := 14 } scenarioA_gis
          allRules).2 :=
  height_increase_flips_violation scenarioA_by_laws scenarioA_metrics
    scenarioA_gis allRules 14 (33/2) rfl
    (by with_unfolding_all decide) (by with_unfolding_all decide)
